import Mathlib

/-!
Shallow embedding of src/terminal-emulator/src/main/jni/termux.c.

The file models the five exported JNI operations:
  - Java_com_termux_terminal_JNI_createSubprocess (argument/environment
    marshaling with allocation accounting) and the static helper
    create_subprocess (parent pre-fork path and child pre-exec path),
  - Java_com_termux_terminal_JNI_setPtyWindowSize,
  - Java_com_termux_terminal_JNI_setPtyUTF8Mode,
  - Java_com_termux_terminal_JNI_waitFor,
  - Java_com_termux_terminal_JNI_close.

OS calls (open, grantpt, fork, chdir, execvp, opendir, ...) are modelled by
an oracle record giving each call's outcome; machine integers are Nat/Int
with explicit reductions modulo 2^16 / 2^32 / 256 where the C code performs
a narrowing cast or the kernel truncates an exit status.
-/

namespace Termux

/-! ## Wait-status decoding (Java_com_termux_terminal_JNI_waitFor)

The wait status word produced by waitpid is modelled as a Nat; the macros
below are the bionic/Linux definitions used by the C file:
  WTERMSIG(s)    = s & 0x7f
  WIFEXITED(s)   = WTERMSIG(s) == 0
  WIFSIGNALED(s) = WTERMSIG(s + 1) >= 2
  WEXITSTATUS(s) = (s >> 8) & 0xff
-/

def WTERMSIG (s : Nat) : Nat := s % 128

def WIFEXITED (s : Nat) : Bool := decide (WTERMSIG s = 0)

def WIFSIGNALED (s : Nat) : Bool := decide (2 ≤ WTERMSIG (s + 1))

def WEXITSTATUS (s : Nat) : Nat := (s / 256) % 256

/-- Body of Java_com_termux_terminal_JNI_waitFor after waitpid has filled in
the status word: the returned jint. -/
def waitFor (s : Nat) : Int :=
  if WIFEXITED s then (WEXITSTATUS s : Int)
  else if WIFSIGNALED s then -(WTERMSIG s : Int)
  else 0

/-- ExitOutcome from the data model of the specification. -/
inductive ExitOutcome where
  | Exited (code : Int)
  | Signaled (signal_number : Nat)
deriving DecidableEq, Repr

/-- Decoding of the returned jint into the ExitOutcome variant, following the
documented sign convention: negative = killed by signal (negated signal
number), nonnegative = exit code. -/
def decodeOutcome (v : Int) : ExitOutcome :=
  if v < 0 then ExitOutcome.Signaled (-v).toNat else ExitOutcome.Exited v

theorem wifsignaled_iff (s : Nat) :
    WIFSIGNALED s = true ↔ 1 ≤ s % 128 ∧ s % 128 ≤ 126 := by
  simp only [WIFSIGNALED, WTERMSIG, decide_eq_true_eq]
  omega

theorem wifexited_iff (s : Nat) : WIFEXITED s = true ↔ s % 128 = 0 := by
  simp only [WIFEXITED, WTERMSIG, decide_eq_true_eq]

theorem not_exited_of_signaled (s : Nat) (h : WIFSIGNALED s = true) :
    WIFEXITED s = false := by
  rw [wifsignaled_iff] at h
  simp only [WIFEXITED, WTERMSIG, decide_eq_false_iff_not]
  omega

/-- C1: waitFor returns Exited(code) for a normal-exit status, Signaled(sig)
for a signal-termination status, and the default Exited(0) for any other
status. -/
theorem c1_waitFor_outcome (s : Nat) :
    (WIFEXITED s = true → decodeOutcome (waitFor s) = ExitOutcome.Exited (WEXITSTATUS s))
    ∧ (WIFSIGNALED s = true → decodeOutcome (waitFor s) = ExitOutcome.Signaled (WTERMSIG s))
    ∧ (WIFEXITED s = false → WIFSIGNALED s = false →
        decodeOutcome (waitFor s) = ExitOutcome.Exited 0) := by
  refine ⟨?_, ?_, ?_⟩
  · intro hx
    simp [waitFor, hx, decodeOutcome]
  · intro hsg
    have hx := not_exited_of_signaled s hsg
    have hge : 1 ≤ s % 128 ∧ s % 128 ≤ 126 := (wifsignaled_iff s).mp hsg
    have h1 : waitFor s = -(WTERMSIG s : Int) := by simp [waitFor, hx, hsg]
    have hlt : -(WTERMSIG s : Int) < 0 := by unfold WTERMSIG; omega
    simp [h1, decodeOutcome, hlt]
  · intro hx hsg
    simp [waitFor, hx, hsg, decodeOutcome]

/-- Witness for C1 at concrete statuses: status 0x0500 is exit(5), status 9
is death by SIGKILL, status 0x7f is a stopped report (the defensive
default). -/
theorem c1_waitFor_outcome_witness :
    decodeOutcome (waitFor 1280) = ExitOutcome.Exited (WEXITSTATUS 1280)
    ∧ decodeOutcome (waitFor 9) = ExitOutcome.Signaled (WTERMSIG 9)
    ∧ decodeOutcome (waitFor 127) = ExitOutcome.Exited 0 :=
  ⟨(c1_waitFor_outcome 1280).1 (by decide),
   (c1_waitFor_outcome 9).2.1 (by decide),
   (c1_waitFor_outcome 127).2.2 (by decide) (by decide)⟩

/-- C10: the jint returned by waitFor is negative exactly for
signal-termination statuses (value = negated signal number); every normal
exit yields the nonnegative exit code, and the defensive default yields 0. -/
theorem c10_waitFor_sign (s : Nat) :
    (waitFor s < 0 ↔ WIFSIGNALED s = true)
    ∧ (WIFSIGNALED s = true → waitFor s = -(WTERMSIG s : Int))
    ∧ (WIFEXITED s = true → waitFor s = (WEXITSTATUS s : Int))
    ∧ (WIFEXITED s = false → WIFSIGNALED s = false → waitFor s = 0) := by
  refine ⟨?_, ?_, ?_, ?_⟩
  · constructor
    · intro hneg
      by_cases hx : WIFEXITED s
      · simp [waitFor, hx] at hneg
        omega
      · by_cases hsg : WIFSIGNALED s
        · exact hsg
        · simp [waitFor, hx, hsg] at hneg
    · intro hsg
      have hx := not_exited_of_signaled s hsg
      have hge := (wifsignaled_iff s).mp hsg
      simp [waitFor, hx, hsg, WTERMSIG]
      omega
  · intro hsg
    have hx := not_exited_of_signaled s hsg
    simp [waitFor, hx, hsg]
  · intro hx
    simp [waitFor, hx]
  · intro hx hsg
    simp [waitFor, hx, hsg]

/-- Witness for C10: a signal status is decoded negative, an exit status
nonnegative, and the default zero. -/
theorem c10_waitFor_sign_witness :
    (waitFor 9 < 0 ↔ WIFSIGNALED 9 = true)
    ∧ waitFor 9 = -(WTERMSIG 9 : Int)
    ∧ waitFor 1280 = (WEXITSTATUS 1280 : Int)
    ∧ waitFor 127 = 0 :=
  ⟨(c10_waitFor_sign 9).1,
   (c10_waitFor_sign 9).2.1 (by decide),
   (c10_waitFor_sign 1280).2.2.1 (by decide),
   (c10_waitFor_sign 127).2.2.2 (by decide) (by decide)⟩

/-! ## Window geometry (Java_com_termux_terminal_JNI_setPtyWindowSize and the
initial geometry in create_subprocess)

jint values are Ints; the C narrowing cast (unsigned short) is reduction
modulo 2^16, and the jint product wraps into the signed 32-bit range. -/

/-- Narrowing cast of a C int to unsigned short (the winsize fields). -/
def ushortOfInt (i : Int) : Nat := (i % 65536).toNat

/-- Wraparound of an integer product into the signed 32-bit jint range. -/
def jintOfInt (n : Int) : Int := (n + 2147483648) % 4294967296 - 2147483648

structure Winsize where
  ws_row : Nat
  ws_col : Nat
  ws_xpixel : Nat
  ws_ypixel : Nat
deriving DecidableEq, Repr

/-- Body of Java_com_termux_terminal_JNI_setPtyWindowSize: the winsize record
handed to the TIOCSWINSZ ioctl. -/
def setPtyWindowSize (rows cols cell_width cell_height : Int) : Winsize :=
  { ws_row := ushortOfInt rows
    ws_col := ushortOfInt cols
    ws_xpixel := ushortOfInt (jintOfInt (cols * cell_width))
    ws_ypixel := ushortOfInt (jintOfInt (rows * cell_height)) }

/-- The winsize record built by create_subprocess for the initial geometry
(lines 75-80 of the C file); the field mapping is textually repeated there. -/
def createInitialWinsize (rows cols cell_width cell_height : Int) : Winsize :=
  { ws_row := ushortOfInt rows
    ws_col := ushortOfInt cols
    ws_xpixel := ushortOfInt (jintOfInt (cols * cell_width))
    ws_ypixel := ushortOfInt (jintOfInt (rows * cell_height)) }

/-- C4: for geometries with each component in [1, 65535] and overflow-safe
pixel products, the winsize record has row count = rows, column count =
columns, pixel width = columns*cell_width and pixel height =
rows*cell_height, each reduced modulo 2^16, and session creation applies the
same mapping for the initial geometry. -/
theorem c4_winsize_mapping (rows cols cw ch : Int)
    (hr1 : 1 ≤ rows) (hr2 : rows ≤ 65535)
    (hc1 : 1 ≤ cols) (hc2 : cols ≤ 65535)
    (hw1 : 1 ≤ cw) (hw2 : cw ≤ 65535)
    (hh1 : 1 ≤ ch) (hh2 : ch ≤ 65535)
    (hx : cols * cw ≤ 2147483647) (hy : rows * ch ≤ 2147483647) :
    setPtyWindowSize rows cols cw ch =
      { ws_row := rows.toNat % 65536
        ws_col := cols.toNat % 65536
        ws_xpixel := (cols * cw).toNat % 65536
        ws_ypixel := (rows * ch).toNat % 65536 }
    ∧ createInitialWinsize rows cols cw ch = setPtyWindowSize rows cols cw ch := by
  have hxp : 1 ≤ cols * cw := le_trans hc1 (le_mul_of_one_le_right (by omega) hw1)
  have hyp : 1 ≤ rows * ch := le_trans hr1 (le_mul_of_one_le_right (by omega) hh1)
  constructor
  · have hjx : jintOfInt (cols * cw) = cols * cw := by unfold jintOfInt; omega
    have hjy : jintOfInt (rows * ch) = rows * ch := by unfold jintOfInt; omega
    simp only [setPtyWindowSize, hjx, hjy, ushortOfInt, Winsize.mk.injEq]
    refine ⟨?_, ?_, ?_, ?_⟩ <;> omega
  · rfl

/-- Witness for C4 at a typical phone geometry. -/
theorem c4_winsize_mapping_witness :
    setPtyWindowSize 24 80 9 18 =
      { ws_row := (24 : Int).toNat % 65536
        ws_col := (80 : Int).toNat % 65536
        ws_xpixel := ((80 : Int) * 9).toNat % 65536
        ws_ypixel := ((24 : Int) * 18).toNat % 65536 }
    ∧ createInitialWinsize 24 80 9 18 = setPtyWindowSize 24 80 9 18 :=
  c4_winsize_mapping 24 80 9 18 (by decide) (by decide) (by decide) (by decide)
    (by decide) (by decide) (by decide) (by decide) (by decide) (by decide)

/-! ## UTF-8 input mode (Java_com_termux_terminal_JNI_setPtyUTF8Mode)

The termios c_iflag word is a Nat of flag bits; IUTF8 is the Linux value
0x4000. The Bool in the result records whether tcsetattr was invoked. -/

def IUTF8 : Nat := 16384

structure TermiosState where
  c_iflag : Nat
deriving DecidableEq, Repr

/-- Body of Java_com_termux_terminal_JNI_setPtyUTF8Mode: read the flags with
tcgetattr, and only when IUTF8 is clear, set it and write back with
tcsetattr. Returns the new flag state and whether a write occurred. -/
def setPtyUTF8Mode (t : TermiosState) : TermiosState × Bool :=
  if t.c_iflag &&& IUTF8 = 0 then
    ({ c_iflag := t.c_iflag ||| IUTF8 }, true)
  else (t, false)

theorem lor_land_self (a b : Nat) : (a ||| b) &&& b = b := by
  apply Nat.eq_of_testBit_eq
  intro i
  rw [Nat.testBit_and, Nat.testBit_or]
  cases a.testBit i <;> cases b.testBit i <;> rfl

/-- C7: setPtyUTF8Mode writes back exactly when the UTF-8 input flag is not
already set, and a second consecutive invocation performs no write. -/
theorem c7_utf8_idempotent (t : TermiosState) :
    ((setPtyUTF8Mode t).snd = true ↔ t.c_iflag &&& IUTF8 = 0)
    ∧ (setPtyUTF8Mode (setPtyUTF8Mode t).fst).snd = false := by
  by_cases h : t.c_iflag &&& IUTF8 = 0
  · refine ⟨by simp [setPtyUTF8Mode, h], ?_⟩
    have h1 : setPtyUTF8Mode t = ({ c_iflag := t.c_iflag ||| IUTF8 }, true) := by
      simp [setPtyUTF8Mode, h]
    rw [h1]
    simp [setPtyUTF8Mode, lor_land_self, IUTF8]
  · refine ⟨by simp [setPtyUTF8Mode, h], ?_⟩
    have h1 : setPtyUTF8Mode t = (t, false) := by
      simp [setPtyUTF8Mode, h]
    rw [h1]
    simp [setPtyUTF8Mode, h]

/-! ## Argument/environment marshaling (Java_com_termux_terminal_JNI_createSubprocess)

The JNI marshaling prologue converts two Java string arrays into C string
arrays. Only allocation accounting matters for the claims, so the arrays
are represented by their lengths and the fallible JNI/libc calls by an
oracle: argvMallocOk / envpMallocOk for the two malloc calls and
argUtfOk i / envUtfOk i for GetStringUTFChars on element i (strdup is
unchecked in the C code and is modelled as always succeeding).
liveAllocs counts heap blocks (arrays and strdup copies) not yet freed at
the point the function returns or throws. -/

structure JniWorld where
  argvMallocOk : Bool
  argUtfOk : Nat → Bool
  envpMallocOk : Bool
  envUtfOk : Nat → Bool

inductive MarshalResult where
  | thrown (msg : String) (liveAllocs : Nat)
  | ok (liveAllocs : Nat)
deriving DecidableEq, Repr

/-- First index below n at which the conversion oracle fails, in loop
order. -/
def firstFail (ok : Nat → Bool) (n : Nat) : Option Nat :=
  (List.range n).find? (fun i => ok i == false)

def argvMallocErrMsg : String := "Cannot allocate argv array"

def argUtfErrMsg : String := "GetStringUTFChars() failed for argv"

def envpMallocErrMsg : String := "malloc() for envp array failed"

def envUtfErrMsg : String := "GetStringUTFChars() failed for env"

/-- Environment phase of the marshaling (lines 174-192 of the C file).
argvLive is the number of live allocations made by the argv phase. On envp
malloc failure the C code frees every argv entry and the argv array before
throwing; on a GetStringUTFChars failure it throws directly. -/
def marshalEnvPhase (w : JniWorld) (numEnv argvLive : Nat) : MarshalResult :=
  if numEnv = 0 then MarshalResult.ok argvLive
  else if w.envpMallocOk = false then MarshalResult.thrown envpMallocErrMsg 0
  else
    match firstFail w.envUtfOk numEnv with
    | some i => MarshalResult.thrown envUtfErrMsg (argvLive + 1 + i)
    | none => MarshalResult.ok (argvLive + 1 + numEnv)

/-- Marshaling prologue of Java_com_termux_terminal_JNI_createSubprocess
(lines 158-192 of the C file): argv phase then environment phase. -/
def marshal (w : JniWorld) (numArgs numEnv : Nat) : MarshalResult :=
  if numArgs = 0 then marshalEnvPhase w numEnv 0
  else if w.argvMallocOk = false then MarshalResult.thrown argvMallocErrMsg 0
  else
    match firstFail w.argUtfOk numArgs with
    | some i => MarshalResult.thrown argUtfErrMsg (1 + i)
    | none => marshalEnvPhase w numEnv (1 + numArgs)

def isThrown : MarshalResult → Bool
  | MarshalResult.thrown _ _ => true
  | MarshalResult.ok _ => false

def liveAllocsOf : MarshalResult → Nat
  | MarshalResult.thrown _ n => n
  | MarshalResult.ok n => n

/-- A world in which every call succeeds except the GetStringUTFChars
conversion of environment entries. -/
def leakWorld : JniWorld :=
  { argvMallocOk := true
    argUtfOk := fun _ => true
    envpMallocOk := true
    envUtfOk := fun _ => false }

/-- C2 counterexample: with one argument and one environment entry, a
GetStringUTFChars failure on the environment entry propagates the error
while three allocations (the argv array, its one strdup entry and the envp
array) are still live — the error path leaks. -/
theorem c2_counterexample :
    isThrown (marshal leakWorld 1 1) = true
    ∧ liveAllocsOf (marshal leakWorld 1 1) = 3 := by
  constructor <;> rfl

theorem firstFail_none (ok : Nat → Bool) (n : Nat) (h : ∀ i, ok i = true) :
    firstFail ok n = none := by
  unfold firstFail
  apply List.find?_eq_none.mpr
  intro i _
  simp [h i]

/-- C2 amended: when the environment-vector ARRAY allocation fails after the
argument vector was fully marshaled, every argv entry and the argv array
itself are released before the failure is propagated (live allocations at
the throw are zero); the string-conversion failure paths of the environment
phase, by contrast, propagate without such cleanup. -/
theorem c2_envp_malloc_cleanup (w : JniWorld) (numArgs numEnv : Nat)
    (ha : w.argvMallocOk = true) (hu : ∀ i, w.argUtfOk i = true)
    (hm : w.envpMallocOk = false) (he : numEnv ≠ 0) :
    isThrown (marshal w numArgs numEnv) = true
    ∧ liveAllocsOf (marshal w numArgs numEnv) = 0 := by
  have hff := firstFail_none w.argUtfOk numArgs hu
  by_cases hn : numArgs = 0 <;>
    simp [marshal, marshalEnvPhase, ha, hm, he, hn, hff, isThrown, liveAllocsOf]

/-- Witness for C2 amended: concrete failing-envp-malloc world with one
argument and one environment entry. -/
theorem c2_envp_malloc_cleanup_witness :
    isThrown
        (marshal
          { argvMallocOk := true
            argUtfOk := fun _ => true
            envpMallocOk := false
            envUtfOk := fun _ => true } 1 1) = true
    ∧ liveAllocsOf
        (marshal
          { argvMallocOk := true
            argUtfOk := fun _ => true
            envpMallocOk := false
            envUtfOk := fun _ => true } 1 1) = 0 :=
  c2_envp_malloc_cleanup
    { argvMallocOk := true
      argUtfOk := fun _ => true
      envpMallocOk := false
      envUtfOk := fun _ => true } 1 1 rfl (fun _ => rfl) rfl (by decide)

/-! ## create_subprocess: oracle and parent path

The oracle fixes the outcome of each OS call made by create_subprocess:
open("/dev/ptmx") (and the fd it returns), grantpt/unlockpt/ptsname_r,
fork, the child's open of the slave device, the /proc/self/fd directory
listing (entry names and the directory's own fd, or none when opendir
fails), chdir and execvp. -/

structure OsWorld where
  ptmxOpenOk : Bool
  ptmFd : Nat
  grantptOk : Bool
  unlockptOk : Bool
  ptsnameOk : Bool
  forkResult : Option Nat
  slaveOpenOk : Bool
  fdDir : Option (List String × Nat)
  chdirOk : Bool
  execOk : Bool

def ptmxErrMsg : String := "Cannot open /dev/ptmx"

def grantErrMsg : String := "Cannot grantpt()/unlockpt()/ptsname_r() on /dev/ptmx"

def forkErrMsg : String := "Fork failed"

inductive ParentResult where
  | thrown (msg : String)
  | ok (ptm : Nat) (pid : Nat)
deriving DecidableEq, Repr

/-- Parent-side outcome of create_subprocess: the returned value (or thrown
exception), the fds opened by the function that are still open in the
calling process when it returns, and the winsize applied to the master
before forking (none when the failure occurred before that point). -/
structure ParentOutcome where
  result : ParentResult
  openFds : List Nat
  winsizeApplied : Option Winsize
deriving DecidableEq, Repr

/-- Parent path of create_subprocess (lines 46-89 of the C file): open the
master, grant/unlock/resolve the slave, set termios flags and the initial
window size, fork; every error path throws a RuntimeException. None of the
error paths closes the already-opened master fd. -/
def createSubprocessParent (w : OsWorld) (rows cols cw ch : Int) : ParentOutcome :=
  if w.ptmxOpenOk = false then
    { result := ParentResult.thrown ptmxErrMsg, openFds := [], winsizeApplied := none }
  else if w.grantptOk = false ∨ w.unlockptOk = false ∨ w.ptsnameOk = false then
    { result := ParentResult.thrown grantErrMsg
      openFds := [w.ptmFd]
      winsizeApplied := none }
  else
    match w.forkResult with
    | none =>
        { result := ParentResult.thrown forkErrMsg
          openFds := [w.ptmFd]
          winsizeApplied := some (createInitialWinsize rows cols cw ch) }
    | some pid =>
        { result := ParentResult.ok w.ptmFd pid
          openFds := [w.ptmFd]
          winsizeApplied := some (createInitialWinsize rows cols cw ch) }

/-- C9: when grantpt, unlockpt or ptsname_r fails after the master was
opened, create_subprocess throws without closing the master fd, which
remains open in the calling process. -/
theorem c9_error_leaves_master_open (w : OsWorld) (rows cols cw ch : Int)
    (hp : w.ptmxOpenOk = true)
    (hf : w.grantptOk = false ∨ w.unlockptOk = false ∨ w.ptsnameOk = false) :
    (createSubprocessParent w rows cols cw ch).result = ParentResult.thrown grantErrMsg
    ∧ w.ptmFd ∈ (createSubprocessParent w rows cols cw ch).openFds := by
  simp [createSubprocessParent, hp, hf]

/-- Witness for C9: a concrete world in which unlockpt fails. -/
theorem c9_error_leaves_master_open_witness :
    (createSubprocessParent
        { ptmxOpenOk := true, ptmFd := 17, grantptOk := true, unlockptOk := false
          ptsnameOk := true, forkResult := some 1234, slaveOpenOk := true
          fdDir := none, chdirOk := true, execOk := true } 24 80 9 18).result
      = ParentResult.thrown grantErrMsg
    ∧ (17 : Nat) ∈ (createSubprocessParent
        { ptmxOpenOk := true, ptmFd := 17, grantptOk := true, unlockptOk := false
          ptsnameOk := true, forkResult := some 1234, slaveOpenOk := true
          fdDir := none, chdirOk := true, execOk := true } 24 80 9 18).openFds :=
  c9_error_leaves_master_open
    { ptmxOpenOk := true, ptmFd := 17, grantptOk := true, unlockptOk := false
      ptsnameOk := true, forkResult := some 1234, slaveOpenOk := true
      fdDir := none, chdirOk := true, execOk := true } 24 80 9 18 rfl
    (Or.inr (Or.inl rfl))

/-! ## create_subprocess: child path -/

/-- Model of C atoi restricted to the nonnegative strings that appear as
/proc/self/fd entry names: the value of the leading run of digits, 0 when
there is none (so "." and ".." parse to 0, as atoi gives). -/
def atoiNat (s : String) : Nat :=
  (s.takeWhile Char.isDigit).foldl (fun acc c => acc * 10 + (c.toNat - 48)) 0

/-- The close-inherited-descriptors loop (lines 109-119 of the C file):
when opendir("/proc/self/fd") succeeds, close every entry whose parsed fd
is greater than 2 and is not the directory's own fd; when it fails, close
nothing. Returns the list of fds passed to close, in order. -/
def fdCloseLoop (fdDir : Option (List String × Nat)) : List Nat :=
  match fdDir with
  | none => []
  | some (entries, dirFd) =>
      (entries.map atoiNat).filter (fun fd => decide (2 < fd) && decide (fd ≠ dirFd))

/-- Key of a KEY=VALUE environment string, as putenv matches entries. -/
def envKey (s : String) : String := s.takeWhile (fun c => c ≠ '=')

/-- Model of libc putenv on an environment represented as an ordered list of
KEY=VALUE strings: replace an entry with the same key, else append. -/
def putenv (e : List String) (s : String) : List String :=
  if e.any (fun t => envKey t == envKey s) then
    e.map (fun t => if envKey t == envKey s then s else t)
  else e ++ [s]

/-- Exit status the OS records for exit(c)/_exit(c): the low 8 bits. -/
def exitStatusOfInt (c : Int) : Nat := (c % 256).toNat

def chdirErrMsg (cwd : String) : String := "chdir(" ++ cwd ++ ")"

def execErrMsg (cmd : String) : String := "exec(" ++ cmd ++ ")"

inductive ChildFate where
  | exited (status : Nat)
  | execed (cmd : String) (argv : List String)
deriving DecidableEq, Repr

/-- Observable state of the child process at its endpoint: which fds the
child closed (in order), its environment, working directory, standard-error
diagnostics, and whether it replaced its image or terminated. -/
structure ChildTrace where
  signalsUnblocked : Bool
  closedFds : List Nat
  env : List String
  cwd : String
  stderrMsgs : List String
  fate : ChildFate
deriving DecidableEq, Repr

/-- Child path of create_subprocess (lines 90-142 of the C file): unblock
signals, close the master copy, setsid, open the slave (exit(-1) on
failure, observed as status 255), dup2 onto 0/1/2, run the fd-close loop,
clearenv then putenv each envp entry in order (envp may be NULL), chdir
(on failure print a diagnostic and continue), execvp (on failure print a
diagnostic and _exit(1)). parentEnv/parentCwd are the inherited
environment and working directory. -/
def childRun (w : OsWorld) (cmd cwd : String) (argv : List String)
    (envp : Option (List String)) (parentEnv : List String) (parentCwd : String) :
    ChildTrace :=
  if w.slaveOpenOk = false then
    { signalsUnblocked := true
      closedFds := [w.ptmFd]
      env := parentEnv
      cwd := parentCwd
      stderrMsgs := []
      fate := ChildFate.exited (exitStatusOfInt (-1)) }
  else
    let loopClosed := fdCloseLoop w.fdDir
    let env2 := match envp with
      | none => []
      | some l => l.foldl putenv []
    let stderr1 := if w.chdirOk then [] else [chdirErrMsg cwd]
    let newCwd := if w.chdirOk then cwd else parentCwd
    if w.execOk then
      { signalsUnblocked := true
        closedFds := w.ptmFd :: loopClosed
        env := env2
        cwd := newCwd
        stderrMsgs := stderr1
        fate := ChildFate.execed cmd argv }
    else
      { signalsUnblocked := true
        closedFds := w.ptmFd :: loopClosed
        env := env2
        cwd := newCwd
        stderrMsgs := stderr1 ++ [execErrMsg cmd]
        fate := ChildFate.exited 1 }

theorem foldl_putenv_append (l : List String) :
    ∀ acc : List String,
      (∀ s ∈ l, ∀ t ∈ acc, envKey t ≠ envKey s) →
      (l.map envKey).Nodup →
      l.foldl putenv acc = acc ++ l := by
  induction l with
  | nil =>
    intro acc _ _
    simp
  | cons x xs ih =>
    intro acc hdisj hnd
    have hnd2 : envKey x ∉ xs.map envKey ∧ (xs.map envKey).Nodup := by
      rw [List.map_cons, List.nodup_cons] at hnd
      exact hnd
    have hany : acc.any (fun t => envKey t == envKey x) = false := by
      rw [List.any_eq_false]
      intro t ht
      simpa using hdisj x (by simp) t ht
    have hpe : putenv acc x = acc ++ [x] := by
      simp [putenv, hany]
    rw [List.foldl_cons, hpe, ih (acc ++ [x]) ?_ hnd2.2]
    · simp
    · intro s hs t ht
      rcases List.mem_append.mp ht with h1 | h2
      · exact hdisj s (by simp [hs]) t h1
      · have hteq : t = x := by simpa using h2
        subst hteq
        intro hEq
        exact hnd2.1 (hEq ▸ List.mem_map_of_mem envKey hs)

theorem foldl_putenv_nodup (l : List String) (h : (l.map envKey).Nodup) :
    l.foldl putenv [] = l := by
  have := foldl_putenv_append l []
    (by intro s _ t ht; simp at ht) h
  simpa using this

/-- C3: the child resets the environment to empty and repopulates it in
order from the environment vector alone, so the result is independent of
the inherited environment; with environment vector FOO=bar the child
observes exactly that single entry. -/
theorem c3_env_isolation (w : OsWorld) (cmd cwd : String) (argv : List String)
    (l pEnv1 pEnv2 : List String) (pCwd : String)
    (hs : w.slaveOpenOk = true) :
    (childRun w cmd cwd argv (some l) pEnv1 pCwd).env
      = (childRun w cmd cwd argv (some l) pEnv2 pCwd).env
    ∧ (childRun w cmd cwd argv (some l) pEnv1 pCwd).env = l.foldl putenv []
    ∧ ((l.map envKey).Nodup → (childRun w cmd cwd argv (some l) pEnv1 pCwd).env = l)
    ∧ (childRun w cmd cwd argv (some ["FOO=bar"]) pEnv1 pCwd).env = ["FOO=bar"] := by
  have henv : ∀ pe : List String,
      (childRun w cmd cwd argv (some l) pe pCwd).env = l.foldl putenv [] := by
    intro pe
    cases he : w.execOk <;> simp [childRun, hs, he]
  refine ⟨by rw [henv, henv], henv pEnv1, ?_, ?_⟩
  · intro hnd
    rw [henv pEnv1, foldl_putenv_nodup l hnd]
  · cases he : w.execOk <;> simp [childRun, hs, he, putenv]

/-- A world in which every OS call of create_subprocess succeeds. -/
def allOkWorld : OsWorld :=
  { ptmxOpenOk := true, ptmFd := 17, grantptOk := true, unlockptOk := true
    ptsnameOk := true, forkResult := some 1234, slaveOpenOk := true
    fdDir := some (["0", "1", "2", "3", "17"], 3), chdirOk := true, execOk := true }

/-- Witness for C3 in the all-success world with a two-entry vector and a
nonempty inherited environment. -/
theorem c3_env_isolation_witness :
    (childRun allOkWorld ("sh") ("/home") [] (some [("A=1"), ("B=2")]) [("X=9")] ("/")).env
      = (childRun allOkWorld ("sh") ("/home") [] (some [("A=1"), ("B=2")]) [] ("/")).env
    ∧ (childRun allOkWorld ("sh") ("/home") [] (some [("A=1"), ("B=2")]) [("X=9")] ("/")).env
      = [("A=1"), ("B=2")].foldl putenv []
    ∧ (([("A=1"), ("B=2")].map envKey).Nodup →
        (childRun allOkWorld ("sh") ("/home") [] (some [("A=1"), ("B=2")]) [("X=9")] ("/")).env
          = [("A=1"), ("B=2")])
    ∧ (childRun allOkWorld ("sh") ("/home") [] (some ["FOO=bar"]) [("X=9")] ("/")).env
      = ["FOO=bar"] :=
  c3_env_isolation allOkWorld ("sh") ("/home") [] [("A=1"), ("B=2")] [("X=9")] [] ("/") rfl

/-- C5: when chdir fails in the child, a diagnostic naming the working
directory is written to standard error, but the child still attempts the
exec: its fate is the same as in the identical world where chdir succeeds,
hence either a successful image replacement or the exec-failure exit status
1 — never a working-directory-specific exit code. -/
theorem c5_chdir_soft_failure (w : OsWorld) (cmd cwd : String) (argv : List String)
    (envp : Option (List String)) (pEnv : List String) (pCwd : String)
    (hs : w.slaveOpenOk = true) (hc : w.chdirOk = false) :
    chdirErrMsg cwd ∈ (childRun w cmd cwd argv envp pEnv pCwd).stderrMsgs
    ∧ (childRun w cmd cwd argv envp pEnv pCwd).fate
        = (childRun { w with chdirOk := true } cmd cwd argv envp pEnv pCwd).fate
    ∧ ((childRun w cmd cwd argv envp pEnv pCwd).fate = ChildFate.execed cmd argv
        ∨ (childRun w cmd cwd argv envp pEnv pCwd).fate = ChildFate.exited 1) := by
  cases he : w.execOk <;> simp [childRun, hs, hc, he]

/-- A world in which only chdir fails. -/
def chdirFailWorld : OsWorld :=
  { allOkWorld with chdirOk := false }

/-- Witness for C5 in a concrete world where only chdir fails. -/
theorem c5_chdir_soft_failure_witness :
    chdirErrMsg ("/gone") ∈ (childRun chdirFailWorld ("sh") ("/gone") [] none [] ("/")).stderrMsgs
    ∧ (childRun chdirFailWorld ("sh") ("/gone") [] none [] ("/")).fate
        = (childRun { chdirFailWorld with chdirOk := true } ("sh") ("/gone") [] none [] ("/")).fate
    ∧ ((childRun chdirFailWorld ("sh") ("/gone") [] none [] ("/")).fate
          = ChildFate.execed ("sh") []
        ∨ (childRun chdirFailWorld ("sh") ("/gone") [] none [] ("/")).fate
          = ChildFate.exited 1) :=
  c5_chdir_soft_failure chdirFailWorld ("sh") ("/gone") [] none [] ("/") rfl rfl

/-- C6: the failures possible only inside the not-yet-replaced child
terminate it with a distinguished non-zero status: slave open failure exits
immediately with status 255 (exit(-1)) and writes no diagnostic, while exec
failure first writes a diagnostic naming the command to standard error and
exits with status 1. -/
theorem c6_child_failures_terminate (w : OsWorld) (cmd cwd : String) (argv : List String)
    (envp : Option (List String)) (pEnv : List String) (pCwd : String) :
    (w.slaveOpenOk = false →
        (childRun w cmd cwd argv envp pEnv pCwd).fate = ChildFate.exited 255
        ∧ (childRun w cmd cwd argv envp pEnv pCwd).stderrMsgs = []
        ∧ (255 : Nat) ≠ 0)
    ∧ (w.slaveOpenOk = true → w.execOk = false →
        (childRun w cmd cwd argv envp pEnv pCwd).fate = ChildFate.exited 1
        ∧ execErrMsg cmd ∈ (childRun w cmd cwd argv envp pEnv pCwd).stderrMsgs
        ∧ (1 : Nat) ≠ 0) := by
  constructor
  · intro hs
    refine ⟨?_, ?_, by decide⟩
    · simp [childRun, hs]
      decide
    · simp [childRun, hs]
  · intro hs he
    refine ⟨?_, ?_, by decide⟩
    · simp [childRun, hs, he]
    · simp [childRun, hs, he]

/-- A world in which the child cannot open the slave device. -/
def slaveFailWorld : OsWorld :=
  { allOkWorld with slaveOpenOk := false }

/-- A world in which execvp fails. -/
def execFailWorld : OsWorld :=
  { allOkWorld with execOk := false }

/-- Witness for C6: the slave-open-failure world and the exec-failure
world, at concrete inputs. -/
theorem c6_child_failures_terminate_witness :
    ((childRun slaveFailWorld ("sh") ("/home") [] none [] ("/")).fate = ChildFate.exited 255
      ∧ (childRun slaveFailWorld ("sh") ("/home") [] none [] ("/")).stderrMsgs = []
      ∧ (255 : Nat) ≠ 0)
    ∧ ((childRun execFailWorld ("sh") ("/home") [] none [] ("/")).fate = ChildFate.exited 1
      ∧ execErrMsg ("sh") ∈ (childRun execFailWorld ("sh") ("/home") [] none [] ("/")).stderrMsgs
      ∧ (1 : Nat) ≠ 0) :=
  ⟨(c6_child_failures_terminate slaveFailWorld ("sh") ("/home") [] none [] ("/")).1 rfl,
   (c6_child_failures_terminate execFailWorld ("sh") ("/home") [] none [] ("/")).2 rfl rfl⟩

/-- C8: the fd-close loop closes exactly the enumerated descriptors that
are greater than 2 and different from the enumeration handle — 0, 1, 2 and
the handle itself are never closed by it — and when the enumeration
facility is unavailable nothing is closed and the child's fate is
unchanged. -/
theorem c8_fd_close_loop (entries : List String) (dirFd : Nat)
    (w : OsWorld) (cmd cwd : String) (argv : List String)
    (envp : Option (List String)) (pEnv : List String) (pCwd : String) :
    (∀ fd : Nat, fd ∈ fdCloseLoop (some (entries, dirFd)) ↔
        (fd ∈ entries.map atoiNat ∧ 2 < fd ∧ fd ≠ dirFd))
    ∧ (0 : Nat) ∉ fdCloseLoop (some (entries, dirFd))
    ∧ (1 : Nat) ∉ fdCloseLoop (some (entries, dirFd))
    ∧ (2 : Nat) ∉ fdCloseLoop (some (entries, dirFd))
    ∧ dirFd ∉ fdCloseLoop (some (entries, dirFd))
    ∧ fdCloseLoop none = []
    ∧ (childRun { w with fdDir := none } cmd cwd argv envp pEnv pCwd).fate
        = (childRun w cmd cwd argv envp pEnv pCwd).fate := by
  have hmem : ∀ fd : Nat, fd ∈ fdCloseLoop (some (entries, dirFd)) ↔
      (fd ∈ entries.map atoiNat ∧ 2 < fd ∧ fd ≠ dirFd) := by
    intro fd
    simp [fdCloseLoop, List.mem_filter, and_assoc]
  refine ⟨hmem, ?_, ?_, ?_, ?_, rfl, ?_⟩
  · intro h
    have := ((hmem 0).mp h).2.1
    omega
  · intro h
    have := ((hmem 1).mp h).2.1
    omega
  · intro h
    have := ((hmem 2).mp h).2.1
    omega
  · intro h
    exact ((hmem dirFd).mp h).2.2 rfl
  · cases hs : w.slaveOpenOk <;> cases he : w.execOk <;>
      simp [childRun, hs, he]

end Termux
